import Mathlib

/-!
Shallow embedding of the authentication core of the Maphia dashboard backend
(Django application, `backend/users` and `backend/core`), together with
theorems checking the natural-language specification against the code.

Modelled source files:
  * `backend/users/models.py` — `User.is_account_locked`,
    `User.reset_failed_attempts`, `User.increment_failed_attempts`,
    `BlacklistedToken.is_blacklisted`, `AuthLog`;
  * `backend/users/application/auth_service.py` — `LoginUseCase.login`,
    `LoginUseCase.refresh_access_token`, `LoginUseCase._log_auth_event`,
    `LoginUseCase._serialize_user`, the `AuthErrorCodes` constants;
  * `backend/users/presentation/views.py` — `AuthViewSet.refresh`;
  * `backend/core/permissions.py` — `IsOwnerOrAdmin.has_object_permission`.

Conventions of the embedding:
  * timestamps are natural numbers counted in minutes (`timezone.now()`
    becomes an explicit `now : Time` argument threaded through the
    operations, and `timedelta(minutes = 15)` becomes `+ 15`);
  * the database is explicit state: a list of users, a list of blacklisted
    tokens and a list of audit-log rows, bundled in `AuthState`;
  * `User.check_password` (delegated by the code to Django's password
    hasher) is a parameter `check_password : String → String → Bool`
    applied to the plaintext and the stored hash;
  * JWT minting and parsing (delegated to `rest_framework_simplejwt`) are
    parameters: `mint_tokens` produces the access/refresh pair on login,
    `parse_token` returns `some claims` for a structurally valid, unexpired
    token and `none` when `RefreshToken(...)` would raise `TokenError`;
  * Django model `.save(...)` becomes functional update of the user list,
    `objects.create` becomes list cons, `.delete()` becomes `List.eraseP`.
-/

namespace MaphiaAuth

/-- Timestamps, counted in minutes. -/
abbrev Time := Nat

/-- `models.py`: lock threshold — 5 consecutive failures (BR-009). -/
def LOCKOUT_THRESHOLD : Int := 5

/-- `models.py`: lock duration — `timedelta(minutes=15)`. -/
def LOCKOUT_MINUTES : Nat := 15

/-- `models.py` `User`: identity, profile and security fields used by the
authentication core.  `failed_login_attempts` is an `IntegerField`, hence
`Int`; nullable columns are `Option`. -/
structure User where
  id : Nat
  username : String
  email : String
  role : String
  full_name : String
  department : String
  phone : String
  password_hash : String
  failed_login_attempts : Int
  account_locked_until : Option Time
  last_login_ip : Option String
  last_login : Option Time
  is_active : Bool
deriving Repr, DecidableEq

/-- `User.is_account_locked`: returns the lock verdict and the (possibly
mutated) user — when the lockout period has lapsed (`now >=
account_locked_until`) the method clears both security fields and saves. -/
def is_account_locked (now : Time) (u : User) : Bool × User :=
  match u.account_locked_until with
  | none => (false, u)
  | some t =>
    if t ≤ now then
      (false, { u with account_locked_until := none, failed_login_attempts := 0 })
    else
      (true, u)

/-- `User.reset_failed_attempts`: zero the counter and clear the lock. -/
def reset_failed_attempts (u : User) : User :=
  { u with failed_login_attempts := 0, account_locked_until := none }

/-- `User.increment_failed_attempts`: add one to the counter; if the new
count reaches the threshold, set `account_locked_until = now + 15 min`. -/
def increment_failed_attempts (now : Time) (u : User) : User :=
  let u1 := { u with failed_login_attempts := u.failed_login_attempts + 1 }
  if LOCKOUT_THRESHOLD ≤ u1.failed_login_attempts then
    { u1 with account_locked_until := some (now + LOCKOUT_MINUTES) }
  else
    u1

/-- One failed login attempt against the lockout state machine, as driven
by `LoginUseCase.login`: the lock is consulted first (which may lazily
clear a lapsed lock) and then the failure is recorded. -/
def failed_attempt (t : Time) (u : User) : User :=
  increment_failed_attempts t (is_account_locked t u).2

/-- `models.py` `BlacklistedToken`: one revocation record. -/
structure BlacklistedToken where
  token : String
  user_id : Nat
  reason : String
  expires_at : Time
deriving Repr, DecidableEq

/-- `BlacklistedToken.is_blacklisted`: look the token up (the `token`
column is unique); if found and `now < expires_at` answer true; if found
but expired, delete the record and answer false; if absent answer false.
Returns the verdict together with the updated store. -/
def is_blacklisted (now : Time) (store : List BlacklistedToken) (tok : String) :
    Bool × List BlacklistedToken :=
  match store.find? (fun b => b.token == tok) with
  | some b =>
    if now < b.expires_at then (true, store)
    else (false, store.eraseP (fun x => x.token == tok))
  | none => (false, store)

/-- `models.py` `AuthLog`: one audit row. -/
structure AuthLog where
  user : Option Nat
  username_attempted : String
  event_type : String
  ip_address : String
  user_agent : String
  success : Bool
  failure_reason : String
  created_at : Time
deriving Repr, DecidableEq

/-- `auth_service.py` `AuthEventData`. -/
structure AuthEventData where
  username : String
  event_type : String
  ip_address : String
  user_agent : String
  success : Bool
  failure_reason : String
  user : Option Nat
deriving Repr, DecidableEq

/-- The persistent state touched by the authentication core:
current clock, `users`, `blacklisted_tokens` and `auth_logs` tables. -/
structure AuthState where
  now : Time
  users : List User
  blacklist : List BlacklistedToken
  auth_logs : List AuthLog
deriving Repr

/-- `LoginUseCase._log_auth_event`: `AuthLog.objects.create(...)`,
stamped with the current time. -/
def log_auth_event (s : AuthState) (e : AuthEventData) : AuthState :=
  { s with auth_logs :=
      { user := e.user
        username_attempted := e.username
        event_type := e.event_type
        ip_address := e.ip_address
        user_agent := e.user_agent
        success := e.success
        failure_reason := e.failure_reason
        created_at := s.now } :: s.auth_logs }

/-- Persisting a mutated user row (`user.save(...)`): replace every row
carrying the same primary key. -/
def save_user (users : List User) (u : User) : List User :=
  users.map (fun v => if v.id == u.id then u else v)

/-- `AuthLog.Meta.ordering = ['-created_at']`: the relation "a was created
no earlier than b", by which retrieved audit rows are ordered. -/
def newest_first (a b : AuthLog) : Prop := b.created_at ≤ a.created_at

instance : DecidableRel newest_first :=
  fun a b => inferInstanceAs (Decidable (b.created_at ≤ a.created_at))

instance : IsTotal AuthLog newest_first :=
  ⟨fun a b => Or.symm (Nat.le_total a.created_at b.created_at)⟩

instance : IsTrans AuthLog newest_first :=
  ⟨fun _ _ _ hab hbc => Nat.le_trans hbc hab⟩

/-- Retrieving the audit trail: the ORM returns the rows of `auth_logs`
ordered by `-created_at`. -/
def get_auth_logs (s : AuthState) : List AuthLog :=
  List.insertionSort newest_first s.auth_logs

-- auth_service.py AuthErrorCodes constants
namespace AuthErrorCodes

def INVALID_CREDENTIALS : String := "AUTH-001"

def INACTIVE_ACCOUNT : String := "AUTH-002"

def ACCOUNT_LOCKED : String := "AUTH-003"

def LOGOUT_FAILED : String := "AUTH-004"

def TOKEN_REVOKED : String := "AUTH-005"

def TOKEN_REFRESH_FAILED : String := "AUTH-006"

end AuthErrorCodes

/-- `LoginUseCase._serialize_user`: the sanitized user projection. -/
structure SerializedUser where
  id : Nat
  username : String
  email : String
  role : String
  full_name : String
  department : String
deriving Repr, DecidableEq

/-- `LoginUseCase._serialize_user` builds exactly the six public fields. -/
def serialize_user (u : User) : SerializedUser :=
  { id := u.id
    username := u.username
    email := u.email
    role := u.role
    full_name := u.full_name
    department := u.department }

/-- Result of `LoginUseCase.login`: either the error envelope
`{success: false, error_code, message}` or the success payload
`{success: true, access_token, refresh_token, user}`. -/
inductive LoginResult where
  | err (error_code : String) (message : String)
  | ok (access_token : String) (refresh_token : String) (user : SerializedUser)
deriving Repr, DecidableEq

/-- `LoginUseCase.login`, following `auth_service.py` step by step.
`check_password` is Django's hash verifier; `mint_tokens` is
`RefreshToken.for_user` plus the custom claims, returning the
(access, refresh) token strings. -/
def login (check_password : String → String → Bool)
    (mint_tokens : User → Time → String × String)
    (s : AuthState) (username password ip_address user_agent : String) :
    LoginResult × AuthState :=
  match s.users.find? (fun v => v.username == username) with
  | none =>
    let s1 := log_auth_event s
      { username := username, event_type := "login_failed"
        ip_address := ip_address, user_agent := user_agent
        success := false, failure_reason := "Invalid username", user := none }
    (.err AuthErrorCodes.INVALID_CREDENTIALS "Invalid credentials", s1)
  | some user =>
    let chk := is_account_locked s.now user
    let u1 := chk.2
    let s1 := { s with users := save_user s.users u1 }
    if chk.1 then
      let s2 := log_auth_event s1
        { username := username, event_type := "login_failed"
          ip_address := ip_address, user_agent := user_agent
          success := false, failure_reason := "Account locked", user := some u1.id }
      (.err AuthErrorCodes.ACCOUNT_LOCKED
        ("Account is locked. Try again after " ++ toString (u1.account_locked_until.getD 0)),
        s2)
    else if u1.is_active = false then
      let s2 := log_auth_event s1
        { username := username, event_type := "login_failed"
          ip_address := ip_address, user_agent := user_agent
          success := false, failure_reason := "Account inactive", user := some u1.id }
      (.err AuthErrorCodes.INACTIVE_ACCOUNT
        "Account is inactive. Please contact administrator.", s2)
    else if check_password password u1.password_hash = false then
      let u2 := increment_failed_attempts s.now u1
      let s2 := { s1 with users := save_user s1.users u2 }
      let s3 := log_auth_event s2
        { username := username, event_type := "login_failed"
          ip_address := ip_address, user_agent := user_agent
          success := false, failure_reason := "Invalid password", user := some u2.id }
      let chk2 := is_account_locked s.now u2
      let s4 := { s3 with users := save_user s3.users chk2.2 }
      if chk2.1 then
        (.err AuthErrorCodes.ACCOUNT_LOCKED
          "Too many failed attempts. Account locked for 15 minutes.", s4)
      else
        (.err AuthErrorCodes.INVALID_CREDENTIALS "Invalid credentials", s4)
    else
      let u2 := reset_failed_attempts u1
      let u3 := { u2 with last_login := some s.now, last_login_ip := some ip_address }
      let s2 := { s1 with users := save_user s1.users u3 }
      let tokens := mint_tokens u3 s.now
      let s3 := log_auth_event s2
        { username := username, event_type := "login_success"
          ip_address := ip_address, user_agent := user_agent
          success := true, failure_reason := "", user := some u3.id }
      (.ok tokens.1 tokens.2 (serialize_user u3), s3)

/-- Claims carried by a structurally valid refresh token. -/
structure TokenClaims where
  user_id : Nat
  username : String
  role : String
  exp : Time
deriving Repr, DecidableEq

/-- Result of `LoginUseCase.refresh_access_token`. -/
inductive RefreshResult where
  | err (error_code : String) (message : String)
  | ok (access_token : String)
deriving Repr, DecidableEq

/-- `LoginUseCase.refresh_access_token`: blacklist check first, then
token parsing (`parse_token tok = none` models `TokenError`), then a new
access token is minted from the parsed claims. -/
def refresh_access_token (parse_token : String → Option TokenClaims)
    (mint_access : TokenClaims → String)
    (s : AuthState) (refresh_token : String) : RefreshResult × AuthState :=
  let p := is_blacklisted s.now s.blacklist refresh_token
  let s1 := { s with blacklist := p.2 }
  if p.1 then
    (.err AuthErrorCodes.TOKEN_REVOKED "Token has been revoked", s1)
  else
    match parse_token refresh_token with
    | some claims => (.ok (mint_access claims), s1)
    | none => (.err AuthErrorCodes.TOKEN_REFRESH_FAILED "Invalid token", s1)

/-- `views.py` `AuthViewSet.refresh`: the request body's `refresh_token`
field (`none` when absent, and an empty string fails the `CharField`
validation), mapped to the HTTP status the view answers with. -/
def refresh_view (parse_token : String → Option TokenClaims)
    (mint_access : TokenClaims → String)
    (s : AuthState) (body_refresh_token : Option String) : Nat × AuthState :=
  match body_refresh_token with
  | none => (400, s)
  | some tok =>
    if tok = "" then (400, s)
    else
      let r := refresh_access_token parse_token mint_access s tok
      match r.1 with
      | .ok _ => (200, r.2)
      | .err code _ =>
        if code == AuthErrorCodes.TOKEN_REVOKED
            || code == AuthErrorCodes.TOKEN_REFRESH_FAILED then
          (401, r.2)
        else
          (400, r.2)

/-- `permissions.py`: the requesting user as the permission evaluator sees
it — `role` is `none` when `hasattr(request.user, 'role')` fails. -/
structure ReqUser where
  id : Nat
  role : Option String
deriving Repr, DecidableEq

/-- An object checked by `IsOwnerOrAdmin`: `uploaded_by` and `user` are
`none` when the object lacks the attribute, `some i` the id of the user
the attribute refers to. -/
structure OwnedObject where
  uploaded_by : Option Nat
  user : Option Nat
deriving Repr, DecidableEq

/-- `IsOwnerOrAdmin.has_object_permission`: admin passes; else the
`uploaded_by` attribute is consulted if present, else the `user`
attribute, else deny. -/
def has_object_permission (ru : ReqUser) (obj : OwnedObject) : Bool :=
  if ru.role == some "admin" then true
  else
    match obj.uploaded_by with
    | some owner => owner == ru.id
    | none =>
      match obj.user with
      | some owner => owner == ru.id
      | none => false

/-- The object's recorded owner: the user the `uploaded_by` attribute
refers to when the object has one, else the one `user` refers to. -/
def recorded_owner (obj : OwnedObject) : Option Nat :=
  match obj.uploaded_by with
  | some o => some o
  | none => obj.user

/-- The state invariant on a user's security fields (spec §3): the
counter is non-negative, and `account_locked_until` is non-null only
while `failed_login_attempts >= 5`. -/
def SecInv (u : User) : Prop :=
  0 ≤ u.failed_login_attempts ∧
    (∀ t, u.account_locked_until = some t → 5 ≤ u.failed_login_attempts)

instance (u : User) : Decidable (SecInv u) := by
  unfold SecInv
  exact inferInstance

/-- A sample user row with all-default security fields, used by witnesses. -/
def sampleUser : User :=
  { id := 1, username := "alice", email := "a@x.io", role := "viewer"
    full_name := "Alice A", department := "R&D", phone := ""
    password_hash := "h1", failed_login_attempts := 0
    account_locked_until := none, last_login_ip := none, last_login := none
    is_active := true }

/-- Concrete password verifier for witnesses: plain string comparison. -/
def cpEq : String → String → Bool := fun p h => p == h

/-- Concrete token minter for witnesses. -/
def mtPair : User → Time → String × String :=
  fun u t => ("acc-" ++ u.username, "ref-" ++ toString t)

/-- Concrete one-user store for witnesses. -/
def s0 : AuthState :=
  { now := 0, users := [sampleUser], blacklist := [], auth_logs := [] }

/-- The user row persisted by a successful login at state `s` from client
address `ip`: the lock-checked row with counter reset, lock cleared and
last-login fields updated. -/
def success_row (s : AuthState) (ip : String) (u : User) : User :=
  { reset_failed_attempts (is_account_locked s.now u).2 with
      last_login := some s.now
      last_login_ip := some ip }

/-- A revocation record used by witnesses. -/
def bl1 : BlacklistedToken :=
  { token := "t1", user_id := 1, reason := "logout", expires_at := 10 }

/-- A state whose revocation store holds exactly `bl1`. -/
def sB : AuthState :=
  { now := 0, users := [], blacklist := [bl1], auth_logs := [] }

/-- A parser under which every token is structurally invalid. -/
def ptNone : String → Option TokenClaims := fun _ => none

/-- A trivial access-token encoder for counterexamples and witnesses. -/
def maEmpty : TokenClaims → String := fun _ => ""

/-- A state with an empty revocation store. -/
def sEmpty : AuthState :=
  { now := 0, users := [], blacklist := [], auth_logs := [] }

/-! ### Theorems -/

/-- C1: starting from a clean user (counter 0, no lock), five consecutive
failed attempts with no intervening success leave the account locked:
`is_account_locked` answers true at every instant strictly before
15 minutes after the fifth failure, and at any instant from that point on
it answers false and, on that same check, resets the counter to 0 and
clears `account_locked_until`. -/
theorem lockout_after_five_failures (u : User) (t1 t2 t3 t4 t5 now : Time)
    (h0 : u.failed_login_attempts = 0) (hl : u.account_locked_until = none) :
    (now < t5 + LOCKOUT_MINUTES →
      (is_account_locked now
        (failed_attempt t5 (failed_attempt t4 (failed_attempt t3
          (failed_attempt t2 (failed_attempt t1 u)))))).1 = true)
    ∧ (t5 + LOCKOUT_MINUTES ≤ now →
      (is_account_locked now
        (failed_attempt t5 (failed_attempt t4 (failed_attempt t3
          (failed_attempt t2 (failed_attempt t1 u)))))).1 = false
      ∧ (is_account_locked now
          (failed_attempt t5 (failed_attempt t4 (failed_attempt t3
            (failed_attempt t2 (failed_attempt t1 u)))))).2.failed_login_attempts = 0
      ∧ (is_account_locked now
          (failed_attempt t5 (failed_attempt t4 (failed_attempt t3
            (failed_attempt t2 (failed_attempt t1 u)))))).2.account_locked_until = none) := by
  have h5 : failed_attempt t5 (failed_attempt t4 (failed_attempt t3
      (failed_attempt t2 (failed_attempt t1 u)))) =
      { u with
          failed_login_attempts := 5
          account_locked_until := some (t5 + LOCKOUT_MINUTES) } := by
    simp [failed_attempt, is_account_locked, increment_failed_attempts,
      LOCKOUT_THRESHOLD, h0, hl]
  rw [h5]
  constructor
  · intro hnow
    have hlt : ¬ (t5 + LOCKOUT_MINUTES ≤ now) := Nat.not_le.mpr hnow
    simp [is_account_locked, hlt]
  · intro hnow
    simp [is_account_locked, hnow]

/-- C1 witness: the theorem instantiated on `sampleUser`, failures at
minutes 0..4, checked at minute 4 + 15 = 19. -/
theorem lockout_after_five_failures_witness :
    (19 < 4 + LOCKOUT_MINUTES →
      (is_account_locked 19
        (failed_attempt 4 (failed_attempt 3 (failed_attempt 2
          (failed_attempt 1 (failed_attempt 0 sampleUser)))))).1 = true)
    ∧ (4 + LOCKOUT_MINUTES ≤ 19 →
      (is_account_locked 19
        (failed_attempt 4 (failed_attempt 3 (failed_attempt 2
          (failed_attempt 1 (failed_attempt 0 sampleUser)))))).1 = false
      ∧ (is_account_locked 19
          (failed_attempt 4 (failed_attempt 3 (failed_attempt 2
            (failed_attempt 1 (failed_attempt 0 sampleUser)))))).2.failed_login_attempts = 0
      ∧ (is_account_locked 19
          (failed_attempt 4 (failed_attempt 3 (failed_attempt 2
            (failed_attempt 1 (failed_attempt 0 sampleUser)))))).2.account_locked_until = none) :=
  lockout_after_five_failures sampleUser 0 1 2 3 4 19 rfl rfl

/-- When the lock check answers false, the checked (and saved) user row
carries no lock. -/
lemma lock_cleared_of_not_locked (now : Time) (u : User)
    (h : (is_account_locked now u).1 = false) :
    (is_account_locked now u).2.account_locked_until = none := by
  cases hu : u.account_locked_until with
  | none => simp [is_account_locked, hu]
  | some t =>
    by_cases ht : t ≤ now
    · simp [is_account_locked, hu, ht]
    · simp [is_account_locked, hu, ht] at h

/-- The lock check leaves every field but the two security fields alone,
and either returns the row unchanged or resets both security fields. -/
lemma is_account_locked_snd_cases (now : Time) (u : User) :
    (is_account_locked now u).2 = u ∨
      (is_account_locked now u).2 =
        { u with account_locked_until := none, failed_login_attempts := 0 } := by
  cases hu : u.account_locked_until with
  | none => left; simp [is_account_locked, hu]
  | some t =>
    by_cases ht : t ≤ now
    · right; simp [is_account_locked, hu, ht]
    · left; simp [is_account_locked, hu, ht]

/-- Members of the saved user list are the saved row or an old row. -/
lemma mem_save_user {users : List User} {u v : User}
    (hv : v ∈ save_user users u) : v = u ∨ v ∈ users := by
  unfold save_user at hv
  rcases List.mem_map.mp hv with ⟨w, hw, hwv⟩
  by_cases h : (w.id == u.id) = true
  · left; rw [← hwv]; simp [h]
  · right; rw [← hwv]; simp [h]; exact hw

/-- Unfolding of `increment_failed_attempts` as a single conditional. -/
lemma increment_spec (now : Time) (u : User) :
    increment_failed_attempts now u =
      if 5 ≤ u.failed_login_attempts + 1 then
        { u with
            failed_login_attempts := u.failed_login_attempts + 1
            account_locked_until := some (now + LOCKOUT_MINUTES) }
      else
        { u with failed_login_attempts := u.failed_login_attempts + 1 } := by
  simp [increment_failed_attempts, LOCKOUT_THRESHOLD]

/-- Saving a row whose primary key is present makes lookup by that key
return the saved row. -/
lemma find_save_user (users : List User) (u : User)
    (h : ∃ v ∈ users, v.id = u.id) :
    (save_user users u).find? (fun v => v.id == u.id) = some u := by
  induction users with
  | nil => simp at h
  | cons c rest ih =>
    by_cases hc : (c.id == u.id) = true
    · have hceq : c.id = u.id := by simpa using hc
      have h1 : save_user (c :: rest) u = u :: save_user rest u := by
        simp [save_user, List.map_cons, hceq]
      rw [h1, List.find?_cons]
      simp
    · rcases h with ⟨v, hv, hvid⟩
      rcases List.mem_cons.mp hv with rfl | hv'
      · exact absurd (by simp [hvid]) hc
      · have hcne : ¬ c.id = u.id := by simpa using hc
        have h1 : save_user (c :: rest) u = c :: save_user rest u := by
          simp [save_user, List.map_cons, hcne]
        have hc' : (c.id == u.id) = false := by simpa using hc
        rw [h1, List.find?_cons, hc']
        exact ih ⟨v, hv', hvid⟩

/-- C7: the security-field invariant — the failure counter is
non-negative and `account_locked_until` is non-null only while the
counter is at least 5 — holds for a freshly initialised user (counter 0,
no lock) and is preserved by `increment_failed_attempts`,
`reset_failed_attempts`, the lapse-clearing branch of
`is_account_locked`, and by every path of `login` (for every user row in
the store). -/
theorem security_invariant_preserved :
    (∀ u : User, u.failed_login_attempts = 0 → u.account_locked_until = none → SecInv u)
    ∧ (∀ (now : Time) (u : User), SecInv u → SecInv (increment_failed_attempts now u))
    ∧ (∀ u : User, SecInv (reset_failed_attempts u))
    ∧ (∀ (now : Time) (u : User), SecInv u → SecInv (is_account_locked now u).2)
    ∧ (∀ (cp : String → String → Bool) (mt : User → Time → String × String)
        (s : AuthState) (un pw ip ua : String),
        (∀ u ∈ s.users, SecInv u) →
        ∀ v ∈ (login cp mt s un pw ip ua).2.users, SecInv v) := by
  have hinit : ∀ u : User, u.failed_login_attempts = 0 →
      u.account_locked_until = none → SecInv u := by
    intro u h0 hl
    exact ⟨by omega, fun t ht => by rw [hl] at ht; cases ht⟩
  have hinc : ∀ (now : Time) (u : User), SecInv u →
      SecInv (increment_failed_attempts now u) := by
    intro now u hu
    obtain ⟨hnn, hlk⟩ := hu
    rw [increment_spec]
    by_cases h5 : 5 ≤ u.failed_login_attempts + 1
    · rw [if_pos h5]
      refine ⟨?_, fun t ht => ?_⟩ <;> simp <;> omega
    · rw [if_neg h5]
      refine ⟨?_, fun t ht => ?_⟩
      · simp; omega
      · simp at ht ⊢
        have := hlk t ht
        omega
  have hreset : ∀ u : User, SecInv (reset_failed_attempts u) := by
    intro u
    exact ⟨by simp [reset_failed_attempts], fun t ht => by
      simp [reset_failed_attempts] at ht⟩
  have hchk : ∀ (now : Time) (u : User), SecInv u →
      SecInv (is_account_locked now u).2 := by
    intro now u hu
    rcases is_account_locked_snd_cases now u with h | h
    · rw [h]; exact hu
    · rw [h]
      exact ⟨by simp, fun t ht => by simp at ht⟩
  have hrst : ∀ (s : AuthState) (ip : String) (u : User),
      SecInv { reset_failed_attempts u with
        last_login := some s.now, last_login_ip := some ip } := by
    intro s ip u
    exact ⟨by simp [reset_failed_attempts], fun t ht => by
      simp [reset_failed_attempts] at ht⟩
  refine ⟨hinit, hinc, hreset, hchk, ?_⟩
  intro cp mt s un pw ip ua hall v hv
  unfold login at hv
  cases hfind : s.users.find? (fun w => w.username == un) with
  | none =>
    rw [hfind] at hv
    simp [log_auth_event] at hv
    exact hall v hv
  | some u =>
    have hu : SecInv u := hall u (List.mem_of_find?_eq_some hfind)
    have hu1 : SecInv (is_account_locked s.now u).2 := hchk s.now u hu
    have hu2 : SecInv (increment_failed_attempts s.now (is_account_locked s.now u).2) :=
      hinc s.now _ hu1
    have hu3 : SecInv (is_account_locked s.now
        (increment_failed_attempts s.now (is_account_locked s.now u).2)).2 :=
      hchk s.now _ hu2
    rw [hfind] at hv
    simp only [log_auth_event] at hv
    split at hv
    · simp at hv
      rcases mem_save_user hv with rfl | h
      · exact hu1
      · exact hall v h
    · split at hv
      · simp at hv
        rcases mem_save_user hv with rfl | h
        · exact hu1
        · exact hall v h
      · split at hv
        · split at hv
          · simp at hv
            rcases mem_save_user hv with rfl | h
            · exact hu3
            · rcases mem_save_user h with rfl | h'
              · exact hu2
              · rcases mem_save_user h' with rfl | h''
                · exact hu1
                · exact hall v h''
          · simp at hv
            rcases mem_save_user hv with rfl | h
            · exact hu3
            · rcases mem_save_user h with rfl | h'
              · exact hu2
              · rcases mem_save_user h' with rfl | h''
                · exact hu1
                · exact hall v h''
        · simp at hv
          rcases mem_save_user hv with rfl | h
          · exact hrst s ip (is_account_locked s.now u).2
          · rcases mem_save_user h with rfl | h'
            · exact hu1
            · exact hall v h'

/-- C7 witness: the invariant chain applied to the sample user — a fresh
row satisfies the invariant and one recorded failure preserves it. -/
theorem security_invariant_witness :
    SecInv (increment_failed_attempts 0 sampleUser) :=
  security_invariant_preserved.2.1 0 sampleUser
    (security_invariant_preserved.1 sampleUser rfl rfl)

/-- C2: every call to `login` — unknown username, locked account,
inactive account, wrong password (locking or not) or success — appends
exactly one audit record, and retrieving the audit trail of the
post-state yields records ordered newest-first by creation timestamp. -/
theorem login_audits_exactly_once (cp : String → String → Bool)
    (mt : User → Time → String × String) (s : AuthState) (un pw ip ua : String) :
    (login cp mt s un pw ip ua).2.auth_logs.length = s.auth_logs.length + 1
    ∧ List.Sorted newest_first (get_auth_logs (login cp mt s un pw ip ua).2) := by
  constructor
  · unfold login
    cases hfind : s.users.find? (fun w => w.username == un) with
    | none => simp [log_auth_event]
    | some u =>
      simp only [log_auth_event]
      split
      · simp
      · split
        · simp
        · split
          · split <;> simp
          · simp
  · exact List.sorted_insertionSort newest_first _

/-- The lock check never changes the checked row's primary key. -/
lemma is_account_locked_id (now : Time) (u : User) :
    (is_account_locked now u).2.id = u.id := by
  rcases is_account_locked_snd_cases now u with h | h <;> rw [h]

/-- Recording a failure never changes the row's primary key. -/
lemma increment_id (now : Time) (u : User) :
    (increment_failed_attempts now u).id = u.id := by
  rw [increment_spec]; split <;> rfl

/-- The saved row is itself a member of the saved list as soon as some
row carried its primary key. -/
lemma self_mem_save_user {users : List User} {u : User}
    (h : ∃ v ∈ users, v.id = u.id) : u ∈ save_user users u := by
  rcases h with ⟨v, hv, hvid⟩
  unfold save_user
  refine List.mem_map.mpr ⟨v, hv, ?_⟩
  simp [hvid]

/-- Rows whose primary key differs from the saved row's are untouched by
a save. -/
lemma save_user_keeps {users : List User} {u v : User}
    (hv : v ∈ users) (hne : ¬ v.id = u.id) : v ∈ save_user users u := by
  unfold save_user
  refine List.mem_map.mpr ⟨v, hv, ?_⟩
  simp [hne]

/-- Checking the lock right after recording a failure on an unlocked row
answers true exactly when the new count reached the threshold, and never
mutates the row further. -/
lemma check_after_increment (now : Time) (u1 : User)
    (hl : u1.account_locked_until = none) :
    is_account_locked now (increment_failed_attempts now u1) =
      (decide (5 ≤ u1.failed_login_attempts + 1), increment_failed_attempts now u1) := by
  by_cases h5 : 5 ≤ u1.failed_login_attempts + 1
  · have hinc : increment_failed_attempts now u1 =
        { u1 with
            failed_login_attempts := u1.failed_login_attempts + 1
            account_locked_until := some (now + LOCKOUT_MINUTES) } := by
      rw [increment_spec, if_pos h5]
    rw [hinc]
    have hto : ¬ (now + LOCKOUT_MINUTES ≤ now) := by simp [LOCKOUT_MINUTES]
    simp [is_account_locked, hto, h5]
  · have hinc : increment_failed_attempts now u1 =
        { u1 with failed_login_attempts := u1.failed_login_attempts + 1 } := by
      rw [increment_spec, if_neg h5]
    rw [hinc]
    simp [is_account_locked, hl, h5]

/-- C5: when the user exists, is unlocked and active, and the password
does not match the stored hash, `login` increments the failure counter
(and persists the incremented row), emits a `login_failed` audit event
with reason "Invalid password", and returns `ACCOUNT_LOCKED` exactly when
this failure causes the transition to Locked (the new count reaches 5, at
which point the lock timestamp is set) and `INVALID_CREDENTIALS`
otherwise (the row staying unlocked). -/
theorem login_wrong_password (cp : String → String → Bool)
    (mt : User → Time → String × String) (s : AuthState) (un pw ip ua : String)
    (u : User)
    (hfind : s.users.find? (fun v => v.username == un) = some u)
    (hnl : (is_account_locked s.now u).1 = false)
    (hact : (is_account_locked s.now u).2.is_active = true)
    (hpw : cp pw (is_account_locked s.now u).2.password_hash = false) :
    (increment_failed_attempts s.now (is_account_locked s.now u).2).failed_login_attempts
        = (is_account_locked s.now u).2.failed_login_attempts + 1
    ∧ (login cp mt s un pw ip ua).2.auth_logs =
        { user := some (increment_failed_attempts s.now (is_account_locked s.now u).2).id
          username_attempted := un
          event_type := "login_failed"
          ip_address := ip
          user_agent := ua
          success := false
          failure_reason := "Invalid password"
          created_at := s.now } :: s.auth_logs
    ∧ (login cp mt s un pw ip ua).2.users.find? (fun v => v.id == u.id) =
        some (increment_failed_attempts s.now (is_account_locked s.now u).2)
    ∧ (5 ≤ (is_account_locked s.now u).2.failed_login_attempts + 1 →
        (login cp mt s un pw ip ua).1 =
          .err AuthErrorCodes.ACCOUNT_LOCKED
            "Too many failed attempts. Account locked for 15 minutes."
        ∧ (increment_failed_attempts s.now
            (is_account_locked s.now u).2).account_locked_until
            = some (s.now + LOCKOUT_MINUTES))
    ∧ ((is_account_locked s.now u).2.failed_login_attempts + 1 < 5 →
        (login cp mt s un pw ip ua).1 =
          .err AuthErrorCodes.INVALID_CREDENTIALS "Invalid credentials"
        ∧ (increment_failed_attempts s.now
            (is_account_locked s.now u).2).account_locked_until = none) := by
  have hu1lock : (is_account_locked s.now u).2.account_locked_until = none :=
    lock_cleared_of_not_locked s.now u hnl
  have hincr : (increment_failed_attempts s.now
      (is_account_locked s.now u).2).failed_login_attempts
      = (is_account_locked s.now u).2.failed_login_attempts + 1 := by
    rw [increment_spec]; split <;> simp
  have hchk2 : is_account_locked s.now
      (increment_failed_attempts s.now (is_account_locked s.now u).2) =
      (decide (5 ≤ (is_account_locked s.now u).2.failed_login_attempts + 1),
        increment_failed_attempts s.now (is_account_locked s.now u).2) :=
    check_after_increment s.now (is_account_locked s.now u).2 hu1lock
  have hmem : ∃ v ∈ s.users, v.id =
      (increment_failed_attempts s.now (is_account_locked s.now u).2).id := by
    refine ⟨u, List.mem_of_find?_eq_some hfind, ?_⟩
    rw [increment_id, is_account_locked_id]
  have hmem1 : ∃ v ∈ save_user s.users (is_account_locked s.now u).2, v.id =
      (increment_failed_attempts s.now (is_account_locked s.now u).2).id := by
    refine ⟨(is_account_locked s.now u).2, self_mem_save_user ?_, ?_⟩
    · exact ⟨u, List.mem_of_find?_eq_some hfind, (is_account_locked_id s.now u).symm⟩
    · rw [increment_id]
  have hmem2 : ∃ v ∈ save_user (save_user s.users (is_account_locked s.now u).2)
      (increment_failed_attempts s.now (is_account_locked s.now u).2), v.id =
      (increment_failed_attempts s.now (is_account_locked s.now u).2).id :=
    ⟨_, self_mem_save_user hmem1, rfl⟩
  have hid : (increment_failed_attempts s.now (is_account_locked s.now u).2).id
      = u.id := by rw [increment_id, is_account_locked_id]
  have hlogin : login cp mt s un pw ip ua =
      ((if 5 ≤ (is_account_locked s.now u).2.failed_login_attempts + 1 then
          LoginResult.err AuthErrorCodes.ACCOUNT_LOCKED
            "Too many failed attempts. Account locked for 15 minutes."
        else
          LoginResult.err AuthErrorCodes.INVALID_CREDENTIALS "Invalid credentials"),
        { now := s.now
          users := save_user (save_user (save_user s.users (is_account_locked s.now u).2)
              (increment_failed_attempts s.now (is_account_locked s.now u).2))
              (increment_failed_attempts s.now (is_account_locked s.now u).2)
          blacklist := s.blacklist
          auth_logs :=
            { user := some (increment_failed_attempts s.now
                (is_account_locked s.now u).2).id
              username_attempted := un
              event_type := "login_failed"
              ip_address := ip
              user_agent := ua
              success := false
              failure_reason := "Invalid password"
              created_at := s.now } :: s.auth_logs }) := by
    unfold login
    rw [hfind]
    simp only [log_auth_event, hnl, hact, hpw, hchk2]
    by_cases hc : 5 ≤ (is_account_locked s.now u).2.failed_login_attempts + 1 <;>
      simp [hc]
  refine ⟨hincr, ?_, ?_, ?_, ?_⟩
  · rw [hlogin]
  · rw [hlogin, ← hid]
    exact find_save_user _ _ hmem2
  · intro h5
    refine ⟨?_, by rw [increment_spec, if_pos h5]⟩
    rw [hlogin]
    simp [h5]
  · intro h5
    have h5n : ¬ 5 ≤ (is_account_locked s.now u).2.failed_login_attempts + 1 := by
      omega
    refine ⟨?_, by rw [increment_spec, if_neg h5n]; simpa using hu1lock⟩
    rw [hlogin]
    simp [h5n]

/-- C5 witness: a first wrong password for the sample user yields
`INVALID_CREDENTIALS` (the failure does not reach the lock threshold). -/
theorem login_wrong_password_witness :
    (login cpEq mtPair s0 "alice" "wrongpw" "1.2.3.4" "ua").1 =
      .err AuthErrorCodes.INVALID_CREDENTIALS "Invalid credentials"
    ∧ (increment_failed_attempts s0.now
        (is_account_locked s0.now sampleUser).2).account_locked_until = none :=
  (login_wrong_password cpEq mtPair s0 "alice" "wrongpw" "1.2.3.4" "ua" sampleUser
      rfl rfl rfl rfl).2.2.2.2 (by decide)

/-- C6: a matching password on an unlocked, active account — whatever the
prior failure count — resets `failed_login_attempts` to 0, clears
`account_locked_until`, updates `last_login_ip`, persists that row, and
returns success carrying an access token, a refresh token and the
sanitized projection of exactly id, username, email, role, full_name and
department; the projection never depends on the password hash. -/
theorem login_success_path (cp : String → String → Bool)
    (mt : User → Time → String × String) (s : AuthState) (un pw ip ua : String)
    (u : User)
    (hfind : s.users.find? (fun v => v.username == un) = some u)
    (hnl : (is_account_locked s.now u).1 = false)
    (hact : (is_account_locked s.now u).2.is_active = true)
    (hpw : cp pw (is_account_locked s.now u).2.password_hash = true) :
    (login cp mt s un pw ip ua).1 =
      .ok (mt (success_row s ip u) s.now).1 (mt (success_row s ip u) s.now).2
        (serialize_user (success_row s ip u))
    ∧ (success_row s ip u).failed_login_attempts = 0
    ∧ (success_row s ip u).account_locked_until = none
    ∧ (success_row s ip u).last_login_ip = some ip
    ∧ (login cp mt s un pw ip ua).2.users.find? (fun v => v.id == u.id) =
        some (success_row s ip u)
    ∧ serialize_user (success_row s ip u) =
        { id := (success_row s ip u).id
          username := (success_row s ip u).username
          email := (success_row s ip u).email
          role := (success_row s ip u).role
          full_name := (success_row s ip u).full_name
          department := (success_row s ip u).department }
    ∧ ∀ ph, serialize_user { success_row s ip u with password_hash := ph } =
        serialize_user (success_row s ip u) := by
  have hpwf : ¬ (cp pw (is_account_locked s.now u).2.password_hash = false) := by
    simp [hpw]
  have hlogin : login cp mt s un pw ip ua =
      (.ok (mt (success_row s ip u) s.now).1 (mt (success_row s ip u) s.now).2
          (serialize_user (success_row s ip u)),
        { now := s.now
          users := save_user (save_user s.users (is_account_locked s.now u).2)
              (success_row s ip u)
          blacklist := s.blacklist
          auth_logs :=
            { user := some (success_row s ip u).id
              username_attempted := un
              event_type := "login_success"
              ip_address := ip
              user_agent := ua
              success := true
              failure_reason := ""
              created_at := s.now } :: s.auth_logs }) := by
    unfold login
    rw [hfind]
    simp only [log_auth_event, hnl, hact, hpw, success_row]
    simp
  have hid3 : (success_row s ip u).id = u.id := by
    simp [success_row, reset_failed_attempts, is_account_locked_id]
  refine ⟨by rw [hlogin], ?_, ?_, ?_, ?_, rfl, fun ph => rfl⟩
  · simp [success_row, reset_failed_attempts]
  · simp [success_row, reset_failed_attempts]
  · simp [success_row]
  · rw [hlogin, ← hid3]
    refine find_save_user _ _ ⟨(is_account_locked s.now u).2, self_mem_save_user ?_, ?_⟩
    · exact ⟨u, List.mem_of_find?_eq_some hfind, (is_account_locked_id s.now u).symm⟩
    · rw [hid3, is_account_locked_id]

/-- C6 witness: the sample user logs in with the matching password. -/
theorem login_success_path_witness :
    (login cpEq mtPair s0 "alice" "h1" "9.9.9.9" "ua").1 =
      .ok (mtPair (success_row s0 "9.9.9.9" sampleUser) s0.now).1
        (mtPair (success_row s0 "9.9.9.9" sampleUser) s0.now).2
        (serialize_user (success_row s0 "9.9.9.9" sampleUser)) :=
  (login_success_path cpEq mtPair s0 "alice" "h1" "9.9.9.9" "ua" sampleUser
      rfl rfl rfl rfl).1

/-- Lookup in a store with pairwise-distinct tokens (the `token` column
is unique) finds the record carrying the sought token. -/
lemma find_unique_token (store : List BlacklistedToken) (b : BlacklistedToken)
    (tok : String)
    (hp : store.Pairwise (fun x y => x.token ≠ y.token))
    (hb : b ∈ store) (ht : b.token = tok) :
    store.find? (fun x => x.token == tok) = some b := by
  induction store with
  | nil => simp at hb
  | cons c rest ih =>
    rcases List.mem_cons.mp hb with rfl | hb'
    · simp [ht]
    · have hne : c.token ≠ b.token := (List.pairwise_cons.mp hp).1 b hb'
      have hcfalse : (c.token == tok) = false := by
        rw [← ht]
        simpa using hne
      simp only [List.find?_cons, hcfalse]
      exact ih (List.pairwise_cons.mp hp).2 hb'

/-- In a store with pairwise-distinct tokens, lazily deleting by token
removes the record carrying that token. -/
lemma not_mem_eraseP_unique (store : List BlacklistedToken) (b : BlacklistedToken)
    (tok : String)
    (hp : store.Pairwise (fun x y => x.token ≠ y.token))
    (hb : b ∈ store) (ht : b.token = tok) :
    b ∉ store.eraseP (fun x => x.token == tok) := by
  induction store with
  | nil => simp
  | cons c rest ih =>
    rcases List.mem_cons.mp hb with rfl | hb'
    · rw [List.eraseP_cons_of_pos (by simp [ht])]
      intro hmem
      exact (List.pairwise_cons.mp hp).1 b hmem rfl
    · have hne : c.token ≠ b.token := (List.pairwise_cons.mp hp).1 b hb'
      have hcfalse : (c.token == tok) = false := by
        rw [← ht]
        simpa using hne
      simp only [List.eraseP_cons, hcfalse, cond_false]
      intro hmem
      rcases List.mem_cons.mp hmem with rfl | h'
      · exact hne rfl
      · exact ih (List.pairwise_cons.mp hp).2 hb' h'

/-- C8: for every token identifier, against a store whose tokens are
pairwise distinct (the unique column): if no record carries the token,
`is_blacklisted` answers false and leaves the store untouched; if the
carrying record has not expired, it answers true and leaves the store
untouched; if the carrying record has expired, it answers false, deletes
exactly that record, keeps every other record, and adds nothing. -/
theorem is_blacklisted_spec (now : Time) (store : List BlacklistedToken)
    (tok : String)
    (hp : store.Pairwise (fun x y => x.token ≠ y.token)) :
    ((∀ b ∈ store, b.token ≠ tok) → is_blacklisted now store tok = (false, store))
    ∧ (∀ b ∈ store, b.token = tok → now < b.expires_at →
        is_blacklisted now store tok = (true, store))
    ∧ (∀ b ∈ store, b.token = tok → b.expires_at ≤ now →
        (is_blacklisted now store tok).1 = false
        ∧ b ∉ (is_blacklisted now store tok).2
        ∧ (∀ x ∈ store, x.token ≠ tok → x ∈ (is_blacklisted now store tok).2)
        ∧ (∀ x ∈ (is_blacklisted now store tok).2, x ∈ store)) := by
  refine ⟨?_, ?_, ?_⟩
  · intro habs
    have hf : store.find? (fun x => x.token == tok) = none := by
      rw [List.find?_eq_none]
      intro x hx
      simp
      exact habs x hx
    simp [is_blacklisted, hf]
  · intro b hb ht hexp
    have hf := find_unique_token store b tok hp hb ht
    simp [is_blacklisted, hf, hexp]
  · intro b hb ht hexp
    have hf := find_unique_token store b tok hp hb ht
    have hnow : ¬ now < b.expires_at := Nat.not_lt.mpr hexp
    have hres : is_blacklisted now store tok =
        (false, store.eraseP (fun x => x.token == tok)) := by
      simp [is_blacklisted, hf, hnow]
    refine ⟨by rw [hres], ?_, ?_, ?_⟩
    · rw [hres]
      exact not_mem_eraseP_unique store b tok hp hb ht
    · intro x hx hxt
      rw [hres]
      exact (List.mem_eraseP_of_neg (by simp [hxt])).mpr hx
    · intro x hx
      rw [hres] at hx
      exact List.mem_of_mem_eraseP hx

/-- C8 witness: at minute 20 the record `bl1` (expiring at minute 10) is
reported unrevoked and lazily deleted. -/
theorem is_blacklisted_spec_witness :
    (is_blacklisted 20 [bl1] "t1").1 = false
    ∧ bl1 ∉ (is_blacklisted 20 [bl1] "t1").2 :=
  ⟨((is_blacklisted_spec 20 [bl1] "t1" (by simp)).2.2 bl1 (by simp) rfl
      (by decide)).1,
    ((is_blacklisted_spec 20 [bl1] "t1" (by simp)).2.2 bl1 (by simp) rfl
      (by decide)).2.1⟩

/-- C3: a refresh token whose identifier has an unexpired revocation
record is rejected with `TOKEN_REVOKED` for every possible parsing
outcome — in particular when the token is structurally invalid or
expired — and the state is untouched: the revocation check precedes any
parsing of the token. -/
theorem refresh_revoked_precedes_parsing
    (pt : String → Option TokenClaims) (ma : TokenClaims → String)
    (s : AuthState) (tok : String) (b : BlacklistedToken)
    (hp : s.blacklist.Pairwise (fun x y => x.token ≠ y.token))
    (hb : b ∈ s.blacklist) (ht : b.token = tok) (hexp : s.now < b.expires_at) :
    refresh_access_token pt ma s tok =
      (.err AuthErrorCodes.TOKEN_REVOKED "Token has been revoked", s) := by
  have hf := find_unique_token s.blacklist b tok hp hb ht
  have hbl : is_blacklisted s.now s.blacklist tok = (true, s.blacklist) := by
    simp [is_blacklisted, hf, hexp]
  unfold refresh_access_token
  simp [hbl]

/-- C3 witness: at minute 0 the revocation record of `bl1` is live, and a
token that fails parsing entirely is still rejected as revoked. -/
theorem refresh_revoked_witness :
    refresh_access_token (fun _ => none) (fun _ => "") sB "t1" =
      (.err AuthErrorCodes.TOKEN_REVOKED "Token has been revoked", sB) :=
  refresh_revoked_precedes_parsing (fun _ => none) (fun _ => "") sB "t1" bl1
    (by simp [sB]) (by simp [sB]) rfl (by decide)

/-- The lazy lookup either leaves the store untouched or, when the found
record has expired, deletes by the sought token. -/
lemma is_blacklisted_snd_cases (now : Time) (store : List BlacklistedToken)
    (tok : String) :
    (is_blacklisted now store tok).2 = store ∨
      (∃ b, store.find? (fun x => x.token == tok) = some b ∧ b.expires_at ≤ now ∧
        (is_blacklisted now store tok).2 =
          store.eraseP (fun x => x.token == tok)) := by
  unfold is_blacklisted
  cases hf : store.find? (fun x => x.token == tok) with
  | none => left; rfl
  | some b =>
    by_cases hexp : now < b.expires_at
    · left; simp [hexp]
    · right
      exact ⟨b, rfl, Nat.le_of_not_lt hexp, by simp [hexp]⟩

/-- An element of a list missing from its `eraseP` was the (first) match
the erasure removed. -/
lemma find?_eq_of_not_mem_eraseP {α : Type} {l : List α} {b : α} {p : α → Bool}
    (hb : b ∈ l) (hnb : b ∉ l.eraseP p) : l.find? p = some b := by
  induction l with
  | nil => simp at hb
  | cons c rest ih =>
    by_cases hc : p c = true
    · rw [List.eraseP_cons_of_pos hc] at hnb
      rcases List.mem_cons.mp hb with rfl | hb'
      · exact List.find?_cons_of_pos _ hc
      · exact absurd hb' hnb
    · have hcfalse : p c = false := by simpa using hc
      simp only [List.eraseP_cons, hcfalse, cond_false] at hnb
      rcases List.mem_cons.mp hb with rfl | hb'
      · exact absurd (List.mem_cons_self _ _) hnb
      · simp only [List.find?_cons, hcfalse]
        exact ih hb' (fun h => hnb (List.mem_cons_of_mem _ h))

/-- The post-state of a refresh call: only the blacklist can differ, by
the lazy lookup. -/
lemma refresh_state_eq (pt : String → Option TokenClaims)
    (ma : TokenClaims → String) (s : AuthState) (tok : String) :
    (refresh_access_token pt ma s tok).2 =
      { s with blacklist := (is_blacklisted s.now s.blacklist tok).2 } := by
  unfold refresh_access_token
  cases hpt : pt tok <;>
    by_cases hbl : (is_blacklisted s.now s.blacklist tok).1 = true <;>
      simp [hpt, hbl]

/-- C10: on every path — revoked, parse failure or success —
`refresh_access_token` leaves the user table, the audit log and the clock
unchanged and appends no blacklist record; the only possible state effect
is the lazy deletion, during the blacklist lookup, of a record that has
expired and carries the presented token. -/
theorem refresh_frame (pt : String → Option TokenClaims)
    (ma : TokenClaims → String) (s : AuthState) (tok : String) :
    (refresh_access_token pt ma s tok).2.users = s.users
    ∧ (refresh_access_token pt ma s tok).2.auth_logs = s.auth_logs
    ∧ (refresh_access_token pt ma s tok).2.now = s.now
    ∧ (∀ b ∈ (refresh_access_token pt ma s tok).2.blacklist, b ∈ s.blacklist)
    ∧ (∀ b ∈ s.blacklist, b ∉ (refresh_access_token pt ma s tok).2.blacklist →
        b.expires_at ≤ s.now ∧ b.token = tok) := by
  rw [refresh_state_eq]
  refine ⟨rfl, rfl, rfl, ?_, ?_⟩
  · intro b hb
    rcases is_blacklisted_snd_cases s.now s.blacklist tok with h | ⟨b0, _, _, h⟩
    · rw [h] at hb; exact hb
    · rw [h] at hb; exact List.mem_of_mem_eraseP hb
  · intro b hb hnb
    rcases is_blacklisted_snd_cases s.now s.blacklist tok with h | ⟨b0, hf, hexp, h⟩
    · rw [h] at hnb; exact absurd hb hnb
    · rw [h] at hnb
      have hfb := find?_eq_of_not_mem_eraseP hb hnb
      have hbtok := List.find?_some hfb
      rw [hf] at hfb
      have hbb : b0 = b := by injection hfb
      refine ⟨hbb ▸ hexp, by simpa using hbtok⟩

/-- C10 witness: a refresh against the one-record store touches neither
users nor audit logs. -/
theorem refresh_frame_witness :
    (refresh_access_token (fun _ => none) (fun _ => "") sB "zz").2.users = sB.users
    ∧ (refresh_access_token (fun _ => none) (fun _ => "") sB "zz").2.auth_logs =
        sB.auth_logs :=
  ⟨(refresh_frame (fun _ => none) (fun _ => "") sB "zz").1,
    (refresh_frame (fun _ => none) (fun _ => "") sB "zz").2.1⟩

/-- C9: the object-level permission evaluator is a pure function of the
requester's role and the ownership comparison — it grants exactly when
the requester's role is admin or the requester is the object's recorded
owner, and denies everyone else. -/
theorem object_permission_pure (ru : ReqUser) (obj : OwnedObject) :
    has_object_permission ru obj =
      (ru.role == some "admin" || recorded_owner obj == some ru.id) := by
  unfold has_object_permission recorded_owner
  by_cases hadm : (ru.role == some "admin") = true
  · simp [hadm]
  · have hadmf : (ru.role == some "admin") = false := by simpa using hadm
    rw [hadmf]
    cases obj.uploaded_by with
    | some o => simp
    | none =>
      cases obj.user with
      | some o => simp
      | none => simp

/-- C4 counterexample: with an empty revocation store (so the token is
certainly not revoked) and a structurally invalid token, the refresh
endpoint answers 401 — refuting both "400 for a structurally invalid
token" and "401 only for a revoked token". -/
theorem refresh_view_invalid_token_401 :
    sEmpty.blacklist = []
    ∧ ptNone "garbage" = none
    ∧ (refresh_view ptNone maEmpty sEmpty (some "garbage")).1 = 401 :=
  ⟨rfl, rfl, rfl⟩

/-- C4 (amended): the refresh endpoint answers 400 exactly for malformed
input (missing or blank `refresh_token`); it answers 401 both for a
revoked token and for a structurally invalid one; a valid, unrevoked
token yields 200. -/
theorem refresh_view_status (pt : String → Option TokenClaims)
    (ma : TokenClaims → String) (s : AuthState) :
    (refresh_view pt ma s none).1 = 400
    ∧ (refresh_view pt ma s (some "")).1 = 400
    ∧ (∀ tok, tok ≠ "" → (is_blacklisted s.now s.blacklist tok).1 = true →
        (refresh_view pt ma s (some tok)).1 = 401)
    ∧ (∀ tok, tok ≠ "" → (is_blacklisted s.now s.blacklist tok).1 = false →
        pt tok = none → (refresh_view pt ma s (some tok)).1 = 401)
    ∧ (∀ tok c, tok ≠ "" → (is_blacklisted s.now s.blacklist tok).1 = false →
        pt tok = some c → (refresh_view pt ma s (some tok)).1 = 200) := by
  refine ⟨rfl, rfl, ?_, ?_, ?_⟩
  · intro tok htok hbl
    simp [refresh_view, htok, refresh_access_token, hbl, AuthErrorCodes.TOKEN_REVOKED]
  · intro tok htok hbl hpt
    simp [refresh_view, htok, refresh_access_token, hbl, hpt,
      AuthErrorCodes.TOKEN_REVOKED, AuthErrorCodes.TOKEN_REFRESH_FAILED]
  · intro tok c htok hbl hpt
    simp [refresh_view, htok, refresh_access_token, hbl, hpt]

/-- C4 witness for the amended statement: a missing body field answers
400 and an unrevoked, unparsable token answers 401. -/
theorem refresh_view_status_witness :
    (refresh_view ptNone maEmpty sEmpty none).1 = 400
    ∧ (refresh_view ptNone maEmpty sEmpty (some "x")).1 = 401 :=
  ⟨(refresh_view_status ptNone maEmpty sEmpty).1,
    (refresh_view_status ptNone maEmpty sEmpty).2.2.2.1 "x" (by decide) rfl rfl⟩

end MaphiaAuth
